import Mathlib

/-!
Verification development for the voice-agent client (`voice_agent.py`).

The file shallowly embeds the repository's own code:
* the JWT-payload inspector `validate_room_name`,
* the STT wrapper `GroqSTT.transcribe`,
* the `VoiceAgent` session controller (`__init__`, `connect`, the four event
  handlers, `disconnect`).

External collaborators (the LiveKit transport, `base64.b64decode`,
`json.loads`, the HTTP response object) are modelled as explicit parameters
or as data structures describing their observable outcomes; the repository's
own control flow is translated line by line.  Python exceptions are modelled
with `Except PyErr`; Python string methods used by the source
(str.split, str.replace, str.startswith) are given executable
models over character lists with Python semantics.
-/

set_option autoImplicit false

/-- A raised Python exception, by kind and message (`str(e)` is `msg`). -/
inductive PyErr where
  | typeError (m : String)
  | valueError (m : String)
  | attributeError (m : String)
  | keyError (m : String)
  deriving Repr, DecidableEq

/-- `str(e)` for a modelled exception. -/
def PyErr.msg : PyErr → String
  | .typeError m => m
  | .valueError m => m
  | .attributeError m => m
  | .keyError m => m

/-- A Python value as produced by `json.loads`: JSON null, booleans, numbers
(integers suffice for this development), strings, lists and dicts (modelled
as association lists; `json.loads` produces unique keys, lookup takes the
first match). -/
inductive JsonVal where
  | null
  | bool (b : Bool)
  | num (n : Int)
  | str (s : String)
  | arr (items : List JsonVal)
  | obj (fields : List (String × JsonVal))

/-- Python truthiness (`if transcript:` …) for modelled JSON values. -/
def pyTruthy : JsonVal → Bool
  | .null => false
  | .bool b => b
  | .num n => !(n == 0)
  | .str s => !(s == "")
  | .arr items => !items.isEmpty
  | .obj fields => !fields.isEmpty

/-- Python truthiness of an `os.getenv` result (`None` and `""` are falsy). -/
def strTruthy : Option String → Bool
  | none => false
  | some s => !(s == "")

/-- Model of Python `str.split` with a one-character separator, over the
character list: "a.b" splits to two groups a and b, the empty string to one
empty group, and ".." to three empty groups. -/
def splitOnChar (sep : Char) : List Char → List (List Char)
  | [] => [[]]
  | c :: rest =>
    let r := splitOnChar sep rest
    if c = sep then [] :: r
    else
      match r with
      | [] => [[c]]
      | g :: gs => (c :: g) :: gs

/-- Model of token.split(".") from line 18 of the source. -/
def pySplitDot (s : String) : List String :=
  (splitOnChar '.' s.toList).map String.mk

/-- Does `needle` occur as a contiguous substring of the list?  This is
Python `needle in hay` for strings. -/
def hasSub (needle : List Char) : List Char → Bool
  | [] => needle.isEmpty
  | c :: rest => needle.isPrefixOf (c :: rest) || hasSub needle rest

/-- Python `in` (membership test) applied to a modelled JSON value with a
string on the left: key membership for dicts, element equality for lists,
substring test for strings, `TypeError` for non-iterables. -/
def pyContains (v : JsonVal) (k : String) : Except PyErr Bool :=
  match v with
  | .obj fields => .ok (fields.lookup k).isSome
  | .arr items =>
    .ok (items.any fun item =>
      match item with
      | .str s => k == s
      | _ => false)
  | .str s => .ok (hasSub k.toList s.toList)
  | .num _ => .error (.typeError "argument of type int is not iterable")
  | .bool _ => .error (.typeError "argument of type bool is not iterable")
  | .null => .error (.typeError "argument of type NoneType is not iterable")

/-- Python subscript `v[k]` with a string key on a modelled JSON value:
dict lookup (`KeyError` when absent), `TypeError` on every other type. -/
def pySubscript (v : JsonVal) (k : String) : Except PyErr JsonVal :=
  match v with
  | .obj fields =>
    match fields.lookup k with
    | some x => .ok x
    | none => .error (.keyError k)
  | .arr _ => .error (.typeError "list indices must be integers or slices, not str")
  | .str _ => .error (.typeError "string indices must be integers")
  | .num _ => .error (.typeError "int is not subscriptable")
  | .bool _ => .error (.typeError "bool is not subscriptable")
  | .null => .error (.typeError "NoneType is not subscriptable")

/-- Line 25 of the source: payload += "=" * (4 - len(payload) % 4). -/
def padPayload (payload : String) : String :=
  payload ++ String.mk (List.replicate (4 - payload.length % 4) '=')

/-- The `try`-block body of `validate_room_name` (lines 17-38).  The external
library calls `base64.b64decode` and `json.loads` are passed in as the
parameters `b64` and `jl` (bytes are `List Nat`); a `.error` value is an
exception propagating out of the `try` block. -/
def validate_room_name_body
    (b64 : String → Except PyErr (List Nat))
    (jl : List Nat → Except PyErr JsonVal)
    (token : String) : Except PyErr (Bool × JsonVal) :=
  -- parts = token.split("."); if len(parts) != 3: return False, "Invalid token format"
  match pySplitDot token with
  | [_, payload, _] =>
    -- payload = parts[1]; payload += "=" * (4 - len(payload) % 4)
    match b64 (padPayload payload) with
    | .error e => .error e
    | .ok decoded =>
      -- data = json.loads(decoded)
      match jl decoded with
      | .error e => .error e
      | .ok data =>
        -- if "video" not in data: return False, "No room information in token"
        match pyContains data "video" with
        | .error e => .error e
        | .ok false => .ok (false, .str "No room information in token")
        | .ok true =>
          -- room_info = data["video"]
          match pySubscript data "video" with
          | .error e => .error e
          | .ok room_info =>
            -- if "room" not in room_info: return False, "No room name in token"
            match pyContains room_info "room" with
            | .error e => .error e
            | .ok false => .ok (false, .str "No room name in token")
            | .ok true =>
              -- room_name = room_info["room"]; return True, room_name
              match pySubscript room_info "room" with
              | .error e => .error e
              | .ok room_name => .ok (true, room_name)
  | _ => .ok (false, .str "Invalid token format")

/-- `validate_room_name` (lines 15-40): the `try`-block wrapped in the
catch-all `except` handler, which converts any raised exception `e` into
the pair of `False` and the message "Error validating token: " followed by
`str(e)`. -/
def validate_room_name
    (b64 : String → Except PyErr (List Nat))
    (jl : List Nat → Except PyErr JsonVal)
    (token : String) : Bool × JsonVal :=
  match validate_room_name_body b64 jl token with
  | .ok r => r
  | .error e => (false, .str ("Error validating token: " ++ e.msg))

/-- Fuel-driven worker for Python `str.replace`: scan left to right, and at
each position either consume a match of `needle` (emitting `repl`) or copy
one character.  Any `fuel ≥ length` of the scanned list is enough when
`needle` is nonempty. -/
def replaceCore (needle repl : List Char) : Nat → List Char → List Char
  | _, [] => []
  | 0, s => s
  | fuel + 1, c :: rest =>
    if needle.isPrefixOf (c :: rest) then
      repl ++ replaceCore needle repl fuel ((c :: rest).drop needle.length)
    else
      c :: replaceCore needle repl fuel rest

/-- Python `s.replace(needle, repl)`: replaces every (non-overlapping,
leftmost-first) occurrence.  The source only calls it with the nonempty
needles `"https://"` and `"http://"`, so the exotic empty-needle behaviour
is modelled as the identity. -/
def pyReplace (s needle repl : String) : String :=
  if needle.toList.isEmpty then s
  else String.mk (replaceCore needle.toList repl.toList (s.toList.length + 1) s.toList)

/-- Python `s.startswith(pre)`. -/
def pyStartswith (s pre : String) : Bool :=
  pre.toList.isPrefixOf s.toList

/-- Lines 86-87 of the source:
if the URL does not start with wss:// then strip every https:// and http:// occurrence and put wss:// in front (the f-string on line 87). -/
def normalizeUrl (url : String) : String :=
  if pyStartswith url "wss://" then url
  else "wss://" ++ pyReplace (pyReplace url "https://" "") "http://" ""

/-- The observable outcome of the one HTTP POST issued by `transcribe`:
its status code, the outcome of `await response.json()` (which can raise on
a non-JSON body), and `await response.text()`. -/
structure HttpResponse where
  status : Nat
  jsonBody : Except PyErr JsonVal
  textBody : String

/-- Python `result.get("text", dflt)`: dict lookup with default; calling
`.get` on any non-dict raises `AttributeError`. -/
def dictGet (v : JsonVal) (k : String) (dflt : JsonVal) : Except PyErr JsonVal :=
  match v with
  | .obj fields => .ok ((fields.lookup k).getD dflt)
  | _ => .error (.attributeError "object has no attribute get")

/-- One entry logged or printed, or one transport call, made by the agent. -/
inductive Effect where
  | printed (s : String)
  | logged (s : String)
  | transportConnect (url token : String)
  | transportPublish
  | transportDisconnect
  | registeredHandlers
  deriving Repr, DecidableEq

/-- The state of the `GroqSTT` object (line 42-46): just its API key. -/
structure GroqSTT where
  api_key : String
  deriving Repr, DecidableEq

/-- `GroqSTT.__init__` (lines 43-46): reads `GROQ_API_KEY`, raises
`ValueError` when it is absent or empty. -/
def GroqSTT.init (groq_api_key : Option String) : Except PyErr GroqSTT :=
  if strTruthy groq_api_key then .ok ⟨groq_api_key.getD ""⟩
  else .error (.valueError "GROQ_API_KEY environment variable is not set")

/-- `GroqSTT.transcribe` (lines 48-70), as a function of the audio payload
and of the HTTP response the endpoint answers with.  The first component is
the value returned to the caller (`.error` = an exception propagates); the
second records the logging side effect. -/
def GroqSTT.transcribe (stt : GroqSTT) (audio_data : List Nat)
    (resp : HttpResponse) : Except PyErr JsonVal × List Effect :=
  if resp.status = 200 then
    -- result = await response.json(); return result.get("text", "")
    match resp.jsonBody with
    | .error e => (.error e, [])
    | .ok result => (dictGet result "text" (.str ""), [])
  else
    -- error_text = await response.text(); logger.error(...); return ""
    (.ok (.str ""), [.logged ("Transcription failed: " ++ resp.textBody)])

/-- The mutable fields of the `VoiceAgent` object (lines 73-77).  `room` and
`audio_track` hold opaque transport objects (`Option Unit`: `none` is
Python `None`). -/
structure VoiceAgent where
  room : Option Unit
  audio_track : Option Unit
  is_connected : Bool
  stt : GroqSTT
  deriving Repr, DecidableEq

/-- `VoiceAgent.__init__` (lines 73-77): constructing the nested `GroqSTT`
can raise; on success every field starts out `None` / `False`. -/
def VoiceAgent.init (groq_api_key : Option String) : Except PyErr VoiceAgent :=
  match GroqSTT.init groq_api_key with
  | .error e => .error e
  | .ok stt => .ok { room := none, audio_track := none, is_connected := false, stt := stt }

/-- The behaviour of the external LiveKit transport: outcomes of
`room.connect`, `local_participant.publish_track` and `room.disconnect`. -/
structure Transport where
  roomConnect : String → String → Except PyErr Unit
  publishTrack : Except PyErr Unit
  roomDisconnect : Except PyErr Unit

/-- The environment variables read by `connect`. -/
structure Env where
  livekit_url : Option String
  livekit_token : Option String

/-- Result of running one method of the agent: the value returned or the
exception raised, the state of the object afterwards (Python mutations
before a raise persist), and the effects emitted on the way. -/
structure StepResult where
  result : Except PyErr Unit
  state : VoiceAgent
  effects : List Effect

/-- Did the method return normally? -/
def StepResult.succeeded (r : StepResult) : Bool :=
  match r.result with
  | .ok _ => true
  | .error _ => false

/-- `VoiceAgent.connect` (lines 79-107), line by line:
check `LIVEKIT_URL`, normalize it, check `LIVEKIT_TOKEN`, print, call
`self.room.connect(url, token)` — which raises `AttributeError` when
`self.room` is `None` — set `is_connected`, create and publish the audio
track, register the four event handlers (the `registeredHandlers` effect). -/
def VoiceAgent.connect (net : Transport) (env : Env) (s : VoiceAgent) : StepResult :=
  -- url = os.getenv("LIVEKIT_URL"); if not url: raise ValueError(...)
  if strTruthy env.livekit_url then
    let url := normalizeUrl (env.livekit_url.getD "")
    -- token = os.getenv("LIVEKIT_TOKEN"); if not token: raise ValueError(...)
    if strTruthy env.livekit_token then
      let token := env.livekit_token.getD ""
      let effs := [Effect.printed ("Connecting to Livekit at " ++ url)]
      -- await self.room.connect(url, token)
      match s.room with
      | none =>
        { result := .error (.attributeError "NoneType object has no attribute connect"),
          state := s, effects := effs }
      | some _ =>
        match net.roomConnect url token with
        | .error e => { result := .error e, state := s,
                        effects := effs ++ [.transportConnect url token] }
        | .ok _ =>
          -- self.is_connected = True
          let s1 : VoiceAgent := { s with is_connected := true }
          -- self.audio_track = rtc.LocalAudioTrack.create(); publish it
          let s2 : VoiceAgent := { s1 with audio_track := some () }
          match net.publishTrack with
          | .error e =>
            { result := .error e, state := s2,
              effects := effs ++ [.transportConnect url token,
                .printed "Successfully connected to Livekit room", .transportPublish] }
          | .ok _ =>
            { result := .ok (), state := s2,
              effects := effs ++ [.transportConnect url token,
                .printed "Successfully connected to Livekit room", .transportPublish,
                .printed "Audio track published", .registeredHandlers] }
    else
      { result := .error (.valueError "LIVEKIT_TOKEN must be set in .env"),
        state := s, effects := [] }
  else
    { result := .error (.valueError "LIVEKIT_URL must be set in .env"),
      state := s, effects := [] }

/-- `VoiceAgent.on_disconnected` (lines 121-123). -/
def VoiceAgent.on_disconnected (s : VoiceAgent) : VoiceAgent × List Effect :=
  ({ s with is_connected := false }, [.printed "Disconnected from Livekit room"])

/-- `VoiceAgent.on_reconnecting` (lines 125-126): prints only. -/
def VoiceAgent.on_reconnecting (s : VoiceAgent) : VoiceAgent × List Effect :=
  (s, [.printed "Reconnecting to Livekit room..."])

/-- `VoiceAgent.on_reconnected` (lines 128-130). -/
def VoiceAgent.on_reconnected (s : VoiceAgent) : VoiceAgent × List Effect :=
  ({ s with is_connected := true }, [.printed "Reconnected to Livekit room"])

/-- `VoiceAgent.disconnect` (lines 132-136):
if self.room and self.is_connected: await self.room.disconnect(); self.is_connected = False. -/
def VoiceAgent.disconnect (net : Transport) (s : VoiceAgent) : StepResult :=
  if s.room.isSome && s.is_connected then
    match net.roomDisconnect with
    | .error e => { result := .error e, state := s, effects := [.transportDisconnect] }
    | .ok _ =>
      { result := .ok (), state := { s with is_connected := false },
        effects := [.transportDisconnect, .printed "Disconnected from Livekit room"] }
  else
    { result := .ok (), state := s, effects := [] }

/-- One line the track-subscription handler prints. -/
inductive Output where
  | info (s : String)
  | user (transcript : JsonVal)
  | errorProcessing (s : String)

/-- The `async for frame in track.frames()` loop body of
`on_track_subscribed` (lines 112-119), as a function of the per-frame
outcomes of `await self.stt.transcribe(frame.data)` (`.error` = the body
raised): a raised exception is caught, printed, and the loop continues;
a truthy transcript is printed as `print("User:", transcript)`. -/
def frameLoop : List (Except PyErr JsonVal) → List Output
  | [] => []
  | o :: rest =>
    (match o with
     | .error e => [Output.errorProcessing ("Error processing audio: " ++ e.msg)]
     | .ok transcript => if pyTruthy transcript then [Output.user transcript] else []) ++
    frameLoop rest

/-- Kind of a subscribed track. -/
inductive TrackKind where
  | audio
  | video
  deriving Repr, DecidableEq

/-- `VoiceAgent.on_track_subscribed` (lines 109-119): guard on the track
kind, print the participant header, then run the frame loop. -/
def VoiceAgent.on_track_subscribed (kind : TrackKind) (participant : String)
    (outcomes : List (Except PyErr JsonVal)) : List Output :=
  if kind = TrackKind.audio then
    Output.info ("Received audio track from " ++ participant) :: frameLoop outcomes
  else []

/-- The session states reachable through the agent's API from a fresh
construction, paired with whether the event handlers have been registered
(line 104-107 runs only when `connect` fully succeeds); the environment,
the transport behaviour and the call order are adversarial.  Event-handler
steps require the handlers to have been registered. -/
inductive Reach : VoiceAgent → Bool → Prop where
  | init (g : Option String) (st : VoiceAgent) :
      VoiceAgent.init g = .ok st → Reach st false
  | connectStep (net : Transport) (env : Env) (a : VoiceAgent) (h : Bool) :
      Reach a h →
      Reach (VoiceAgent.connect net env a).state
        (h || (VoiceAgent.connect net env a).succeeded)
  | disconnectStep (net : Transport) (a : VoiceAgent) (h : Bool) :
      Reach a h → Reach (VoiceAgent.disconnect net a).state h
  | evDisconnected (a : VoiceAgent) :
      Reach a true → Reach (VoiceAgent.on_disconnected a).1 true
  | evReconnecting (a : VoiceAgent) :
      Reach a true → Reach (VoiceAgent.on_reconnecting a).1 true
  | evReconnected (a : VoiceAgent) :
      Reach a true → Reach (VoiceAgent.on_reconnected a).1 true

/-! ## Shared concrete objects for witnesses -/

/-- A transport whose calls all succeed. -/
def netOk : Transport :=
  { roomConnect := fun _ _ => .ok (), publishTrack := .ok (), roomDisconnect := .ok () }

/-- The state of a freshly constructed agent (GROQ key `"k"`). -/
def agentFresh : VoiceAgent :=
  { room := none, audio_track := none, is_connected := false, stt := ⟨"k"⟩ }

/-- A hypothetical live session: transport object present, flag set. -/
def agentLive : VoiceAgent :=
  { room := some (), audio_track := none, is_connected := true, stt := ⟨"k"⟩ }

/-! ## C2 — payload padding -/

/-- C2 counterexample: the claim says a payload whose length is already a
multiple of 4 gets no padding characters; on the code, `"AAAA"` (length 4)
is padded with four `=` characters, and `validate_room_name` passes the
8-character string to the base64 decoder (observed here through a decoder
that reports its input back). -/
theorem c2_pad_counterexample :
    ("AAAA" : String).length % 4 = 0 ∧
    padPayload "AAAA" = "AAAA====" ∧
    padPayload "AAAA" ≠ "AAAA" ∧
    validate_room_name (fun s => .error (.valueError s)) (fun _ => .ok .null) "h.AAAA.s"
      = (false, .str "Error validating token: AAAA====") :=
  ⟨by decide, by decide, by decide, rfl⟩

/-- C2 (amended): the payload is right-padded with `4 - (len mod 4)` `=`
characters — between 1 and 4, so the padded length is always a multiple of
4, but a payload whose length is already a multiple of 4 receives four
padding characters rather than none. -/
theorem c2_pad_amended (p : String) :
    (padPayload p).length = p.length + (4 - p.length % 4) ∧
    (padPayload p).length % 4 = 0 ∧
    (p.length % 4 = 0 → (padPayload p).length = p.length + 4) := by
  have h : (padPayload p).length = p.length + (4 - p.length % 4) := by
    simp [padPayload, String.length_append]
  refine ⟨h, ?_, ?_⟩ <;> rw [h] <;> omega

theorem c2_pad_amended_witness :
    ("AAAA" : String).length % 4 = 0 ∧ (padPayload "AAAA").length = "AAAA".length + 4 :=
  ⟨by decide, (c2_pad_amended "AAAA").2.2 (by decide)⟩

/-! ## C5 — URL normalization -/

/-- C5 counterexample: the claim says a URL not using the secure scheme has
its `http://`/`https://` *prefix* stripped; `"a.comhttps://"` has no such
prefix, so the claim predicts `"wss://a.comhttps://"`, but the code removes
every occurrence and produces `"wss://a.com"`. -/
theorem c5_normalize_counterexample :
    pyStartswith "a.comhttps://" "wss://" = false ∧
    pyStartswith "a.comhttps://" "https://" = false ∧
    pyStartswith "a.comhttps://" "http://" = false ∧
    normalizeUrl "a.comhttps://" = "wss://a.com" ∧
    normalizeUrl "a.comhttps://" ≠ "wss://" ++ "a.comhttps://" :=
  ⟨by decide, by decide, by decide, by decide, by decide⟩

/-- C5 (amended): the three concrete examples hold, a URL already starting
with `wss://` is unchanged, and in general a URL not starting with `wss://`
has *every occurrence* of `https://` and then of `http://` removed before
`wss://` is prepended (not only a leading prefix). -/
theorem c5_normalize_amended :
    normalizeUrl "livekit.example.com" = "wss://livekit.example.com" ∧
    normalizeUrl "https://livekit.example.com" = "wss://livekit.example.com" ∧
    (∀ url : String, pyStartswith url "wss://" = true → normalizeUrl url = url) ∧
    (∀ url : String, pyStartswith url "wss://" = false →
      normalizeUrl url = "wss://" ++ pyReplace (pyReplace url "https://" "") "http://" "") := by
  refine ⟨by decide, by decide, ?_, ?_⟩ <;> intro url h <;> simp [normalizeUrl, h]

theorem c5_normalize_amended_witness :
    normalizeUrl "wss://livekit.example.com" = "wss://livekit.example.com" ∧
    normalizeUrl "a.comhttps://x"
      = "wss://" ++ pyReplace (pyReplace "a.comhttps://x" "https://" "") "http://" "" :=
  ⟨c5_normalize_amended.2.2.1 _ (by decide), c5_normalize_amended.2.2.2 _ (by decide)⟩

/-! ## C9 — event handlers -/

/-- C9: the transport-reported `disconnected` event clears the connected
flag, `reconnected` sets it, and `reconnecting` changes no session state at
all. -/
theorem c9_event_handlers_state (s : VoiceAgent) :
    (VoiceAgent.on_disconnected s).1 = { s with is_connected := false } ∧
    (VoiceAgent.on_reconnected s).1 = { s with is_connected := true } ∧
    (VoiceAgent.on_reconnecting s).1 = s :=
  ⟨rfl, rfl, rfl⟩

/-! ## C6 — frame loop resilience -/

/-- C6: a frame whose processing raises is caught and logged and the loop
continues with the remaining frames unchanged; a frame whose transcription
is a non-empty string is emitted as a labeled `User:` line, an empty result
emits nothing; and for an audio track the handler runs the loop over the
whole frame sequence. -/
theorem c6_frame_loop_resilient :
    (∀ (pre : List (Except PyErr JsonVal)) (e : PyErr) (post : List (Except PyErr JsonVal)),
      frameLoop (pre ++ .error e :: post) =
        frameLoop pre ++
          Output.errorProcessing ("Error processing audio: " ++ e.msg) :: frameLoop post) ∧
    (∀ (t : String) (post : List (Except PyErr JsonVal)),
      frameLoop (.ok (.str t) :: post) =
        if t = "" then frameLoop post else Output.user (.str t) :: frameLoop post) ∧
    (∀ (participant : String) (outcomes : List (Except PyErr JsonVal)),
      VoiceAgent.on_track_subscribed .audio participant outcomes =
        Output.info ("Received audio track from " ++ participant) :: frameLoop outcomes) := by
  refine ⟨?_, ?_, ?_⟩
  · intro pre e post
    induction pre with
    | nil => simp [frameLoop]
    | cons o rest ih => simp [frameLoop, ih]
  · intro t post
    by_cases h : t = "" <;> simp [frameLoop, pyTruthy, h]
  · intro participant outcomes
    simp [VoiceAgent.on_track_subscribed]

/-! ## C8 — disconnect contract -/

/-- C8: `disconnect` while the connected flag is down is a complete no-op
(no transport call, no state change, normal return); with a transport
object present and the flag set, it tears the session down and clears the
flag, changing nothing else. -/
theorem c8_disconnect_contract :
    (∀ (net : Transport) (s : VoiceAgent), s.is_connected = false →
      VoiceAgent.disconnect net s = { result := .ok (), state := s, effects := [] }) ∧
    (∀ (net : Transport) (s : VoiceAgent) (u : Unit), s.room = some u →
      s.is_connected = true → net.roomDisconnect = .ok () →
      VoiceAgent.disconnect net s =
        { result := .ok (), state := { s with is_connected := false },
          effects := [.transportDisconnect, .printed "Disconnected from Livekit room"] }) := by
  constructor
  · intro net s h
    simp [VoiceAgent.disconnect, h]
  · intro net s u hr hc hd
    simp [VoiceAgent.disconnect, hr, hc, hd]

theorem c8_disconnect_contract_witness :
    VoiceAgent.disconnect netOk agentFresh = { result := .ok (), state := agentFresh, effects := [] } ∧
    VoiceAgent.disconnect netOk agentLive =
      { result := .ok (), state := { agentLive with is_connected := false },
        effects := [.transportDisconnect, .printed "Disconnected from Livekit room"] } :=
  ⟨c8_disconnect_contract.1 netOk agentFresh rfl,
   c8_disconnect_contract.2 netOk agentLive () rfl rfl rfl⟩

/-! ## C7 — missing configuration -/

/-- C7: if the room-URL or the access-token environment variable is absent,
`connect` raises a `ValueError` before any transport call (no effect at all
is emitted) and leaves the session state — in particular the connected
flag — untouched. -/
theorem c7_connect_missing_config (net : Transport) (env : Env) (s : VoiceAgent)
    (h : env.livekit_url = none ∨ env.livekit_token = none) :
    (∃ m, (VoiceAgent.connect net env s).result = .error (.valueError m)) ∧
    (VoiceAgent.connect net env s).state = s ∧
    (VoiceAgent.connect net env s).effects = [] := by
  rcases h with h | h
  · have hu : strTruthy env.livekit_url = false := by rw [h]; rfl
    simp [VoiceAgent.connect, hu]
  · cases hu : strTruthy env.livekit_url with
    | false => simp [VoiceAgent.connect, hu]
    | true =>
      have ht : strTruthy env.livekit_token = false := by rw [h]; rfl
      simp [VoiceAgent.connect, hu, ht]

theorem c7_connect_missing_config_witness :
    (VoiceAgent.connect netOk { livekit_url := some "livekit.example.com", livekit_token := none }
        agentFresh).state = agentFresh ∧
    (VoiceAgent.connect netOk { livekit_url := some "livekit.example.com", livekit_token := none }
        agentFresh).effects = [] :=
  ⟨(c7_connect_missing_config netOk _ agentFresh (Or.inr rfl)).2.1,
   (c7_connect_missing_config netOk _ agentFresh (Or.inr rfl)).2.2⟩

/-! ## C4 — transcribe -/

/-- C4 counterexample: on a 200 response whose JSON body is an array — a
body with no text field — the claim says `transcribe` returns `""`; the
code calls `.get` on the array and an `AttributeError` propagates to the
caller. -/
theorem c4_transcribe_counterexample :
    (GroqSTT.transcribe ⟨"k"⟩ [0] { status := 200, jsonBody := .ok (.arr []), textBody := "" }).1
      = .error (.attributeError "object has no attribute get") ∧
    (GroqSTT.transcribe ⟨"k"⟩ [0] { status := 200, jsonBody := .ok (.arr []), textBody := "" }).1
      ≠ .ok (.str "") :=
  ⟨rfl, fun h => Except.noConfusion h⟩

/-- C4 (amended): on a 200 response whose body parses to a JSON object,
`transcribe` returns the `text` field value, or `""` when the field is
missing; on every non-success response it logs the body and returns `""`;
only a 200 response whose body is not a JSON object makes an exception
escape to the caller. -/
theorem c4_transcribe_amended (stt : GroqSTT) (audio : List Nat) (resp : HttpResponse) :
    (∀ fields, resp.status = 200 → resp.jsonBody = .ok (.obj fields) →
      (GroqSTT.transcribe stt audio resp).1 = .ok ((fields.lookup "text").getD (.str ""))) ∧
    (resp.status ≠ 200 →
      GroqSTT.transcribe stt audio resp =
        (.ok (.str ""), [.logged ("Transcription failed: " ++ resp.textBody)])) := by
  constructor
  · intro fields h200 hbody
    simp [GroqSTT.transcribe, h200, hbody, dictGet]
  · intro h
    simp [GroqSTT.transcribe, h]

theorem c4_transcribe_amended_witness :
    (GroqSTT.transcribe ⟨"k"⟩ [0]
        { status := 200, jsonBody := .ok (.obj [("text", .str "hello")]), textBody := "" }).1
      = .ok (.str "hello") ∧
    GroqSTT.transcribe ⟨"k"⟩ [0] { status := 500, jsonBody := .ok .null, textBody := "err" }
      = (.ok (.str ""), [.logged "Transcription failed: err"]) :=
  ⟨(c4_transcribe_amended ⟨"k"⟩ [0] _).1 [("text", .str "hello")] rfl rfl,
   (c4_transcribe_amended ⟨"k"⟩ [0] _).2 (by decide)⟩

/-! ## C3 — valid tokens -/

/-- C3: for every token with exactly three dot-separated segments whose
padded second segment base64-decodes to bytes that parse as a JSON object
with a top-level `video` object containing a `room` field,
`validate_room_name` returns `True` paired with exactly that room value. -/
theorem c3_valid_token_returns_room
    (b64 : String → Except PyErr (List Nat)) (jl : List Nat → Except PyErr JsonVal)
    (token s0 payload s2 : String) (decoded : List Nat)
    (fields vfields : List (String × JsonVal)) (room_name : JsonVal)
    (hsplit : pySplitDot token = [s0, payload, s2])
    (hb64 : b64 (padPayload payload) = .ok decoded)
    (hjson : jl decoded = .ok (.obj fields))
    (hvideo : fields.lookup "video" = some (.obj vfields))
    (hroom : vfields.lookup "room" = some room_name) :
    validate_room_name b64 jl token = (true, room_name) := by
  simp [validate_room_name, validate_room_name_body, hsplit, hb64, hjson,
    pyContains, pySubscript, hvideo, hroom]

theorem c3_valid_token_returns_room_witness :
    validate_room_name (fun _ => .ok [0])
      (fun _ => .ok (.obj [("video", .obj [("room", .str "room-42")])]))
      "h.AAAA.s" = (true, .str "room-42") :=
  c3_valid_token_returns_room _ _ "h.AAAA.s" "h" "AAAA" "s" [0]
    [("video", .obj [("room", .str "room-42")])] [("room", .str "room-42")]
    (.str "room-42") rfl rfl rfl rfl rfl

/-! ## C10 — the inspector is total -/

/-- Case analysis of the `try`-block body: it returns success with a room
value, one of the three structured failure messages, or raises. -/
theorem validate_body_cases
    (b64 : String → Except PyErr (List Nat)) (jl : List Nat → Except PyErr JsonVal)
    (token : String) :
    (∃ r, validate_room_name_body b64 jl token = .ok (true, r)) ∨
    validate_room_name_body b64 jl token = .ok (false, .str "Invalid token format") ∨
    validate_room_name_body b64 jl token = .ok (false, .str "No room information in token") ∨
    validate_room_name_body b64 jl token = .ok (false, .str "No room name in token") ∨
    (∃ e, validate_room_name_body b64 jl token = .error e) := by
  unfold validate_room_name_body
  repeat' split
  all_goals simp

/-- C10: `validate_room_name` is a total pure function of its input: for
every token and every behaviour of the base64 and JSON decoders it returns
a `(success, value)` pair — success, or one of the three structured failure
messages, or the catch-all `Error validating token:` message — and every
exception the body raises is caught by the handler and converted into that
structured failure instead of propagating. -/
theorem c10_validate_never_raises
    (b64 : String → Except PyErr (List Nat)) (jl : List Nat → Except PyErr JsonVal)
    (token : String) :
    ((validate_room_name b64 jl token).1 = true ∨
     (validate_room_name b64 jl token).2 = .str "Invalid token format" ∨
     (validate_room_name b64 jl token).2 = .str "No room information in token" ∨
     (validate_room_name b64 jl token).2 = .str "No room name in token" ∨
     (∃ m, (validate_room_name b64 jl token).2 = .str ("Error validating token: " ++ m))) ∧
    (∀ e, validate_room_name_body b64 jl token = .error e →
      validate_room_name b64 jl token = (false, .str ("Error validating token: " ++ e.msg))) := by
  constructor
  · rcases validate_body_cases b64 jl token with ⟨r, h⟩ | h | h | h | ⟨e, h⟩ <;>
      simp [validate_room_name, h]
  · intro e h
    simp [validate_room_name, h]

theorem c10_validate_never_raises_witness :
    validate_room_name (fun _ => .error (.valueError "bad base64")) (fun _ => .ok .null) "a.b.c"
      = (false, .str "Error validating token: bad base64") :=
  (c10_validate_never_raises _ _ "a.b.c").2 (.valueError "bad base64") rfl

/-! ## C1 — the transport object is never created -/

/-- `connect` leaves the state unchanged and does not register handlers
whenever `self.room` is `None` (it raises before any mutation). -/
theorem connect_state_room_none (net : Transport) (env : Env) (s : VoiceAgent)
    (h : s.room = none) :
    (VoiceAgent.connect net env s).state = s ∧
    (VoiceAgent.connect net env s).succeeded = false := by
  cases hu : strTruthy env.livekit_url with
  | false => simp [VoiceAgent.connect, hu, StepResult.succeeded]
  | true =>
    cases ht : strTruthy env.livekit_token with
    | false => simp [VoiceAgent.connect, hu, ht, StepResult.succeeded]
    | true => simp [VoiceAgent.connect, hu, ht, h, StepResult.succeeded]

/-- `disconnect` is a no-op on the state when the flag is down. -/
theorem disconnect_state_not_connected (net : Transport) (s : VoiceAgent)
    (h : s.is_connected = false) : (VoiceAgent.disconnect net s).state = s := by
  simp [VoiceAgent.disconnect, h]

/-- Invariant: every state reachable from a fresh construction still has
`room = None`, the connected flag down, and no handlers registered. -/
theorem reach_never_connected : ∀ (a : VoiceAgent) (h : Bool), Reach a h →
    a.room = none ∧ a.is_connected = false ∧ h = false := by
  intro a h hr
  induction hr with
  | init g st hg =>
    cases hgt : strTruthy g <;> simp [VoiceAgent.init, GroqSTT.init, hgt] at hg
    subst hg
    exact ⟨rfl, rfl, rfl⟩
  | connectStep net env a h _ ih =>
    obtain ⟨hroom, hconn, hh⟩ := ih
    obtain ⟨hs, hsc⟩ := connect_state_room_none net env a hroom
    rw [hs, hsc, hh]
    exact ⟨hroom, hconn, rfl⟩
  | disconnectStep net a h _ ih =>
    obtain ⟨hroom, hconn, hh⟩ := ih
    rw [disconnect_state_not_connected net a hconn]
    exact ⟨hroom, hconn, hh⟩
  | evDisconnected a _ ih => exact absurd ih.2.2 (by simp)
  | evReconnecting a _ ih => exact absurd ih.2.2 (by simp)
  | evReconnected a _ ih => exact absurd ih.2.2 (by simp)

/-- C1: a freshly constructed agent has `room = None`; with both
environment variables present, `connect` on any state whose `room` is
`None` raises `AttributeError` on the `None` transport object and leaves
the state — including the connected flag — unchanged; and along every
sequence of API calls from a fresh construction the connected flag stays
`False`, so the Connected state is unreachable. -/
theorem c1_fresh_agent_never_connects :
    (∀ (g : Option String) (st : VoiceAgent), VoiceAgent.init g = .ok st →
      st.room = none ∧ st.is_connected = false) ∧
    (∀ (net : Transport) (env : Env) (s : VoiceAgent),
      s.room = none → strTruthy env.livekit_url = true → strTruthy env.livekit_token = true →
      (VoiceAgent.connect net env s).result
          = .error (.attributeError "NoneType object has no attribute connect") ∧
      (VoiceAgent.connect net env s).state = s) ∧
    (∀ (a : VoiceAgent) (h : Bool), Reach a h → a.is_connected = false) := by
  refine ⟨?_, ?_, ?_⟩
  · intro g st hg
    have h := reach_never_connected st false (Reach.init g st hg)
    exact ⟨h.1, h.2.1⟩
  · intro net env s hroom hu ht
    constructor <;> simp [VoiceAgent.connect, hu, ht, hroom]
  · intro a h hr
    exact (reach_never_connected a h hr).2.1

theorem c1_fresh_agent_never_connects_witness :
    (VoiceAgent.connect netOk { livekit_url := some "u", livekit_token := some "t" }
        agentFresh).result
      = .error (.attributeError "NoneType object has no attribute connect") ∧
    agentFresh.is_connected = false :=
  ⟨(c1_fresh_agent_never_connects.2.1 netOk
      { livekit_url := some "u", livekit_token := some "t" } agentFresh rfl rfl rfl).1,
   c1_fresh_agent_never_connects.2.2 agentFresh false (Reach.init (some "k") agentFresh rfl)⟩
